import Mathlib

/-!
Verification development for the GarageGuardian control core.

The Python source is shallowly embedded: pure fragments become Lean
functions, stateful methods become explicit state-passing functions, and
the cooperative-scheduler effects that the claims mention (relay commands,
published events, raised exceptions) are reified as explicit outputs.
Python floats are modelled as exact rationals (the claims only involve
ordering and addition, subtraction and multiplication on small values,
where rounding plays no role); wall-clock instants are rationals as well.  Python dicts keyed by
strings are modelled as insertion-ordered association lists, matching
CPython's ordered-dict semantics.
-/

namespace GG

/-- Lookup in an insertion-ordered association list (Python `d[k]` / `d.get(k)`). -/
def dictGet {α : Type} : List (String × α) → String → Option α
  | [], _ => none
  | (k', v') :: rest, k => if k' = k then some v' else dictGet rest k

/-- Update in an insertion-ordered association list (Python `d[k] = v`):
an existing key keeps its position, a new key is appended. -/
def dictSet {α : Type} : List (String × α) → String → α → List (String × α)
  | [], k, v => [(k, v)]
  | (k', v') :: rest, k, v =>
    if k' = k then (k, v) :: rest else (k', v') :: dictSet rest k v

/-- Removal from an association list (Python `del d[k]` / `os.remove`). -/
def dictRemove {α : Type} : List (String × α) → String → List (String × α)
  | [], _ => []
  | (k', v') :: rest, k =>
    if k' = k then dictRemove rest k else (k', v') :: dictRemove rest k

/-! ### Persistence model (gg/logging/file_logger.py and gg/logging/cowbell_logger.py)

A file either holds a complete JSON serialization of a value or a
truncated/partial one (a write that stopped part-way).  `json.load` of a
truncated file raises, which the loaders turn into `None`. -/

/-- Contents of one on-disk file: a complete serialization of a value, or a
partial (interrupted) write of one. -/
inductive FileData (α : Type) where
  | complete (d : α)
  | truncated (d : α)
deriving DecidableEq

/-- A filesystem: file name to contents; a missing name is a missing file. -/
abbrev FS (α : Type) := List (String × FileData α)

/-- Outcome of the OS-level temp-file write inside `save_state`:
it succeeds, it reports success but the read-back differs (verification
catches this), or it raises `OSError` leaving a partial temp file. -/
inductive WriteResult where
  | ok
  | corrupt
  | ioError
deriving DecidableEq

namespace FileLogger

/-- SimpleLogger.save_state of gg/logging/file_logger.py: write `data` to
`target ++ ".tmp"`, read it back and compare with `data`, and only when the
comparison succeeds rename the temp file over `target`.  Every failure is
caught and returns `false`; the `finally` block removes the temp file.
`w` is the outcome of the temp write, `renameOk` of `os.rename`. -/
def save_state {α : Type} (fs : FS α) (data : α) (target : String)
    (w : WriteResult) (renameOk : Bool) : Bool × FS α :=
  let temp := target ++ ".tmp"
  match w with
  | .ioError =>
    -- OSError during the temp write: the temp file may hold a partial
    -- serialization; the exception is caught, False is returned, and the
    -- finally block removes the temp file.
    (false, dictRemove (dictSet fs temp (.truncated data)) temp)
  | .corrupt =>
    -- The temp file does not read back equal to `data`: json.load raises or
    -- the deep comparison fails, ValueError is caught, False is returned,
    -- and the finally block removes the temp file.
    (false, dictRemove (dictSet fs temp (.truncated data)) temp)
  | .ok =>
    let fs1 := dictSet fs temp (.complete data)
    if renameOk then
      -- verification passed: atomic rename of the temp file over the target
      (true, dictRemove (dictSet fs1 target (.complete data)) temp)
    else
      -- OSError from os.rename: caught, False; finally removes the temp file
      (false, dictRemove fs1 temp)

/-- SimpleLogger.load_state of gg/logging/file_logger.py: `None` for a
missing or empty file, `None` (after a caught exception) for a file whose
contents do not parse, otherwise the stored value. -/
def load_state {α : Type} (fs : FS α) (file : String) : Option α :=
  match dictGet fs file with
  | none => none
  | some (.truncated _) => none
  | some (.complete d) => some d

/-- SimpleLogger.delete_state of gg/logging/file_logger.py. -/
def delete_state {α : Type} (fs : FS α) (file : String) : FS α :=
  dictRemove fs file

end FileLogger

namespace CowbellLogger

/-- SimpleLogger.save_state of gg/logging/cowbell_logger.py: opens the
target file itself with mode "w" (truncating it) and writes the
serialization directly; there is no temp file, no read-back verification
and no rename.  A write that raises part-way is caught and returns
`false`, leaving the target holding a partial value. -/
def save_state {α : Type} (fs : FS α) (data : α) (target : String)
    (writeOk : Bool) : Bool × FS α :=
  if writeOk then
    (true, dictSet fs target (.complete data))
  else
    (false, dictSet fs target (.truncated data))

/-- SimpleLogger.load_state of gg/logging/cowbell_logger.py: any exception
(missing file, bad JSON) is caught and yields `None`. -/
def load_state {α : Type} (fs : FS α) (file : String) : Option α :=
  match dictGet fs file with
  | none => none
  | some (.truncated _) => none
  | some (.complete d) => some d

end CowbellLogger

/-! ### Event system (gg/core/Events.py)

Handlers are identified by numeric ids.  `EventSystem.publish` touches only
the three handler lists of the published type, so the model carries the
per-type lists.  The order of successful `subscribe` calls is recorded in
`registered` (bookkeeping used only to state claims about "registration
order"; the source keeps this order implicitly in its lists). -/

/-- Per-event-type subscription state of EventSystem. -/
structure Subs where
  syncSubs : List Nat
  asyncSubs : List Nat
  prioritySubs : List Nat
  registered : List Nat
deriving DecidableEq

/-- EventSystem with no subscribers for the type. -/
def Subs.empty : Subs := ⟨[], [], [], []⟩

/-- EventSystem.subscribe: appends the handler to the async or sync list
(skipping duplicates), and additionally to the priority list when the
priority flag is set. -/
def subscribe (s : Subs) (h : Nat) (priority : Bool) (isAsync : Bool) : Subs :=
  let s1 :=
    if isAsync then
      if h ∈ s.asyncSubs then s
      else { s with asyncSubs := s.asyncSubs ++ [h], registered := s.registered ++ [h] }
    else
      if h ∈ s.syncSubs then s
      else { s with syncSubs := s.syncSubs ++ [h], registered := s.registered ++ [h] }
  if priority then { s1 with prioritySubs := s1.prioritySubs ++ [h] } else s1

/-- One dispatch step of EventSystem.publish: either a single handler that
is invoked and awaited to completion before the next step starts, or a
batch of handlers started together by `asyncio.gather` (their executions
may overlap; none is awaited individually before the others start). -/
inductive Dispatch where
  | seq (h : Nat)
  | batch (hs : List Nat)
deriving DecidableEq

/-- The dispatch plan of EventSystem.publish: priority handlers one by one,
then every async subscriber in a single `asyncio.gather` batch, then the
synchronous subscribers one by one. -/
def publish_schedule (s : Subs) : List Dispatch :=
  s.prioritySubs.map Dispatch.seq
    ++ (if s.asyncSubs.isEmpty then [] else [Dispatch.batch s.asyncSubs])
    ++ s.syncSubs.map Dispatch.seq

/-- The order in which handlers are started by a dispatch plan (handlers of
a gather batch are started in list order). -/
def start_order (ds : List Dispatch) : List Nat :=
  ds.foldr (fun d acc => match d with | .seq h => h :: acc | .batch hs => hs ++ acc) []

/-- True when every step of the plan awaits its single handler to
completion before the next step runs. -/
def all_sequential (ds : List Dispatch) : Bool :=
  ds.all (fun d => match d with | .seq _ => true | .batch _ => false)

/-- Handler-error statistics of EventSystem. -/
structure DispatchStats where
  handler_errors : Nat
  events_processed : Nat
deriving DecidableEq

/-- The synchronous-handler loop of EventSystem.publish: each handler runs
inside its own try/except, a failure increments `handler_errors` and the
loop continues with the remaining handlers.  `fails h` tells whether
handler `h` raises.  Returns the final statistics and the list of handlers
that were invoked. -/
def run_sync_handlers (fails : Nat → Bool) : List Nat → DispatchStats → DispatchStats × List Nat
  | [], st => (st, [])
  | h :: rest, st =>
    let st1 := if fails h then { st with handler_errors := st.handler_errors + 1 } else st
    let (st2, ran) := run_sync_handlers fails rest st1
    (st2, h :: ran)

/-! ### Safety monitor (gg/core/Safety.py)

Severities are the integers LOW = 0, MEDIUM = 1, HIGH = 2, CRITICAL = 3.
A condition's check function is supplied to `check_safety` as an oracle
`results : String → Option Bool` (`none` models a check that raises).
The side effects the claims talk about are reified: the number of
`emergency_stop` invocations and the log of invoked recovery actions. -/

/-- MAX_CONDITIONS of gg/core/Safety.py. -/
def MAX_CONDITIONS : Nat := 20

/-- SafetyCondition of gg/core/Safety.py (the check function itself lives
in the oracle passed to check_safety; `has_recovery` records whether a
recovery_action callback is present). -/
structure SafetyCondition where
  name : String
  severity : Nat
  threshold : Nat
  violation_count : Nat
  status : String
  has_recovery : Bool
deriving DecidableEq

/-- SafetyCondition.__init__ plus the recovery_action assignment performed
by add_condition. -/
def SafetyCondition.mk_new (name : String) (severity threshold : Nat)
    (has_recovery : Bool) : SafetyCondition :=
  ⟨name, severity, threshold, 0, "normal", has_recovery⟩

/-- SafetyMonitor state.  `conditions` is the insertion-ordered dict;
`emergency_stop_count` counts invocations of the emergency_stop method
(each of which calls every registered stop callback); `recovery_invoked`
logs the names whose recovery_action was called. -/
structure SafetyMonitor where
  conditions : List SafetyCondition
  active : Bool
  status : String
  violation_history : List (String × Nat × ℚ)
  max_history : Nat
  emergency_stop_count : Nat
  recovery_invoked : List String
deriving DecidableEq

/-- SafetyMonitor.__init__. -/
def SafetyMonitor.init : SafetyMonitor :=
  ⟨[], true, "normal", [], 20, 0, []⟩

/-- Dict insertion for the conditions dict: an existing name is overwritten
in place, a new name is appended. -/
def condInsert : List SafetyCondition → SafetyCondition → List SafetyCondition
  | [], c => [c]
  | c' :: rest, c => if c'.name = c.name then c :: rest else c' :: condInsert rest c

/-- Lookup in the conditions dict. -/
def condLookup : List SafetyCondition → String → Option SafetyCondition
  | [], _ => none
  | c :: rest, name => if c.name = name then some c else condLookup rest name

/-- SafetyMonitor.add_condition: raises (modelled as `none`, with the
monitor untouched since the raise precedes any mutation) once the dict
already holds MAX_CONDITIONS entries; otherwise stores a fresh condition
under the name, overwriting an existing one. -/
def add_condition (m : SafetyMonitor) (name : String) (severity : Nat)
    (threshold : Nat) (has_recovery : Bool) : Option SafetyMonitor :=
  if MAX_CONDITIONS ≤ m.conditions.length then none
  else some { m with
    conditions := condInsert m.conditions (SafetyCondition.mk_new name severity threshold has_recovery) }

/-- SafetyMonitor.emergency_stop: logs, sets the global status to failure,
deactivates the monitor, and calls every registered stop callback. -/
def emergency_stop (m : SafetyMonitor) : SafetyMonitor :=
  { m with status := "failure", active := false,
           emergency_stop_count := m.emergency_stop_count + 1 }

/-- SafetyMonitor._handle_violation: appends the violation to the history
(popping the oldest entry when the bound is exceeded); a HIGH or CRITICAL
severity triggers emergency_stop, otherwise the recovery action (when one
is present) is invoked.  The condition's status field is not touched. -/
def handle_violation (m : SafetyMonitor) (c : SafetyCondition) (ts : ℚ) : SafetyMonitor :=
  let hist := m.violation_history ++ [(c.name, c.severity, ts)]
  let hist := if m.max_history < hist.length then hist.tail else hist
  let m1 := { m with violation_history := hist }
  if 2 ≤ c.severity then emergency_stop m1
  else if c.has_recovery then { m1 with recovery_invoked := m1.recovery_invoked ++ [c.name] }
  else m1

/-- The loop body of SafetyMonitor.check_safety over the conditions dict:
a check that raises is caught (all_safe becomes false, the count is
untouched); a safe result resets violation_count; an unsafe result
increments it and, at threshold, runs _handle_violation.  Returns the
updated conditions, the updated monitor effects, and the all_safe flag. -/
def check_loop (results : String → Option Bool) (ts : ℚ) :
    List SafetyCondition → SafetyMonitor → Bool →
    List SafetyCondition × SafetyMonitor × Bool
  | [], m, allSafe => ([], m, allSafe)
  | c :: rest, m, allSafe =>
    match results c.name with
    | none =>
      let (rest', m', safe') := check_loop results ts rest m false
      (c :: rest', m', safe')
    | some true =>
      let c' := { c with violation_count := 0 }
      let (rest', m', safe') := check_loop results ts rest m allSafe
      (c' :: rest', m', safe')
    | some false =>
      let c' := { c with violation_count := c.violation_count + 1 }
      let m1 := if c'.threshold ≤ c'.violation_count then handle_violation m c' ts else m
      let (rest', m', safe') := check_loop results ts rest m1 false
      (c' :: rest', m', safe')

/-- SafetyMonitor.check_safety: returns false immediately (state untouched)
when the monitor is inactive, otherwise evaluates every condition. -/
def check_safety (m : SafetyMonitor) (results : String → Option Bool) (ts : ℚ) :
    Bool × SafetyMonitor :=
  if m.active = false then (false, m)
  else
    let (conds, m', safe) := check_loop results ts m.conditions m true
    (safe, { m' with conditions := conds })

/-- Repeated calls of check_safety with the same check oracle. -/
def iterate_checks (results : String → Option Bool) (ts : ℚ) :
    Nat → SafetyMonitor → SafetyMonitor
  | 0, m => m
  | n + 1, m => (check_safety (iterate_checks results ts n m) results ts).2

/-- A check function that always reports the condition unsafe. -/
def always_false : String → Option Bool := fun _ => some false

/-! ### Thermostat controller (gg/controllers/Thermostat.py and
gg/controllers/thermostat_states.py)

The controller's runtime fields, the state manager's fields and the relay's
boolean state (MockRelay/HeaterRelay: activate sets it, deactivate clears
it, is_active reads it) are gathered into one record.  Relay commands and
event publications are returned as an explicit event list. -/

/-- Events published by the embedded fragments. -/
inductive EventOut where
  | heater_activated (temp : Option ℚ) (setpoint : ℚ) (ts : ℚ)
  | heater_deactivated (temp : Option ℚ) (setpoint : ℚ) (ts : ℚ)
  | thermostat_timer_end (ts : ℚ)
deriving DecidableEq

/-- A value carried by a temp_setting_changed event. -/
inductive SettingValue where
  | num (q : ℚ)
  | str (s : String)
deriving DecidableEq

/-- ThermostatController + ThermostatStateManager runtime state. -/
structure ThermoState where
  setpoint : ℚ
  cycle_delay : ℚ
  min_run_time : ℚ
  temp_differential : ℚ
  heater_mode : String
  last_off_time : ℚ
  last_on_time : ℚ
  current_temp : Option ℚ
  fsm : String
  last_state : Option String
  cycle_delay_start : ℚ
  relay_active : Bool
deriving DecidableEq

/-- ThermostatStateManager.transition (thermostat_states.py): a no-op when
the state is unchanged or when can_transition blocks the move from
cycle_delay to heating before the delay has elapsed; otherwise records the
previous state, switches, and stamps the start of a cycle-delay period. -/
def sm_transition (now : ℚ) (s : ThermoState) (new_state : String) : ThermoState :=
  if new_state = s.fsm then s
  else if new_state = "heating" ∧ s.fsm = "cycle_delay" ∧ now - s.cycle_delay_start < s.cycle_delay then s
  else
    let s1 := { s with last_state := some s.fsm, fsm := new_state }
    if new_state = "cycle_delay" then { s1 with cycle_delay_start := now } else s1

/-- ThermostatController._turn_on: relay activate, record last_on_time,
publish heater_activated. -/
def turn_on (now : ℚ) (s : ThermoState) : ThermoState × List EventOut :=
  ({ s with relay_active := true, last_on_time := now },
   [.heater_activated s.current_temp s.setpoint now])

/-- ThermostatController._turn_off: relay deactivate, record last_off_time,
publish heater_deactivated. -/
def turn_off (now : ℚ) (s : ThermoState) : ThermoState × List EventOut :=
  ({ s with relay_active := false, last_off_time := now },
   [.heater_deactivated s.current_temp s.setpoint now])

/-- ThermostatController._check_thermostat, normal (non-raising) path.
`all([...])` over the four float settings is false exactly when one of
them equals 0, in which case the method returns before touching anything.
The minimum-run-time guard runs before every other check. -/
def check_thermostat (now : ℚ) (s : ThermoState) : ThermoState × List EventOut :=
  if s.setpoint = 0 ∨ s.cycle_delay = 0 ∨ s.min_run_time = 0 ∨ s.temp_differential = 0 then
    (s, [])
  else if s.relay_active = true ∧ now - s.last_on_time < s.min_run_time then
    (sm_transition now s "min_run", [])
  else if s.heater_mode ≠ "heat" ∨ s.current_temp = none then
    let (s1, evs) :=
      if s.relay_active = true ∧ s.min_run_time ≤ now - s.last_on_time then
        turn_off now s
      else (s, [])
    (sm_transition now s1 "disabled", evs)
  else if s.relay_active = true then
    match s.current_temp with
    | some t =>
      if s.setpoint + s.temp_differential ≤ t then
        if s.min_run_time ≤ now - s.last_on_time then
          let (s1, evs) := turn_off now s
          (sm_transition now s1 "idle", evs)
        else (s, [])
      else (s, [])
    | none => (s, [])
  else
    if now - s.last_off_time < s.cycle_delay then
      (sm_transition now s "cycle_delay", [])
    else if s.cycle_delay ≤ now - s.last_off_time ∧
        (s.current_temp.any (fun t => t ≤ s.setpoint - s.temp_differential)) = true then
      let (s1, evs) := turn_on now s
      (sm_transition now s1 "heating", evs)
    else
      (sm_transition now s "idle", [])

/-- The field-update part of ThermostatController._handle_setting_change:
updates the matching in-memory field (no range validation); a HEATER_MODE
change additionally moves the state machine. -/
def apply_setting (now : ℚ) (s : ThermoState) (setting : String)
    (value : SettingValue) : ThermoState :=
  if setting = "HEATER_MODE" then
    match value with
    | .str v =>
      let s' := { s with heater_mode := v }
      if v = "off" then sm_transition now s' "disabled" else sm_transition now s' "idle"
    | .num _ => s
  else if setting = "SETPOINT" then
    match value with | .num q => { s with setpoint := q } | .str _ => s
  else if setting = "CYCLE_DELAY" then
    match value with | .num q => { s with cycle_delay := q } | .str _ => s
  else if setting = "MIN_RUN_TIME" then
    match value with | .num q => { s with min_run_time := q } | .str _ => s
  else if setting = "TEMP_DIFFERENTIAL" then
    match value with | .num q => { s with temp_differential := q } | .str _ => s
  else s

/-- ThermostatController._handle_setting_change: apply the setting to the
in-memory state, then re-run _check_thermostat. -/
def handle_setting_change (now : ℚ) (s : ThermoState) (setting : String)
    (value : SettingValue) : ThermoState × List EventOut :=
  check_thermostat now (apply_setting now s setting value)

/-- ThermostatController._handle_temperature, normal path: an event without
a usable temperature is logged and dropped, otherwise the reading is stored
and _check_thermostat runs. -/
def handle_temperature (now : ℚ) (s : ThermoState) (temp : Option ℚ) :
    ThermoState × List EventOut :=
  match temp with
  | none => (s, [])
  | some t => check_thermostat now { s with current_temp := some t }

/-- The except branch of ThermostatController._handle_temperature (and the
identical one of _check_thermostat): on any exception the error is logged,
the relay — if active — is deactivated through _turn_off immediately, with
no minimum-run-time check, and the exception is re-raised (the final Bool
is the raised flag). -/
def handle_temperature_exn (now : ℚ) (s : ThermoState) :
    ThermoState × List EventOut × Bool :=
  if s.relay_active = true then
    let (s1, evs) := turn_off now s
    (s1, evs, true)
  else (s, [], true)

/-- Delivery of a sequence of temp_setting_changed commands to the
controller, each with its own delivery time. -/
def run_commands (s : ThermoState) : List (ℚ × String × SettingValue) → ThermoState
  | [] => s
  | (t, k, v) :: rest => run_commands (handle_setting_change t s k v).1 rest

/-! ### Settings manager (gg/settings_manager.py) and SystemConfig
(config.py) -/

/-- SystemConfig: the TEMP_SETTINGS dict (the part the claims touch). -/
structure SysConfig where
  temp_settings : List (String × SettingValue)
deriving DecidableEq

/-- SystemConfig.update_setting on the TEMP_SETTINGS category: succeeds,
returning the old value, only when the key already exists. -/
def update_setting (c : SysConfig) (setting : String) (v : SettingValue) :
    (Bool × Option SettingValue) × SysConfig :=
  match dictGet c.temp_settings setting with
  | some old => ((true, some old), { c with temp_settings := dictSet c.temp_settings setting v })
  | none => ((false, none), c)

/-- SettingsManager._validate_temp_setting: numeric range checks per
setting; HEATER_MODE must be the string heat or off; an unknown setting
(or a value of the wrong type) is invalid. -/
def validate_temp_setting (setting : String) (value : SettingValue) : Bool :=
  if setting = "SETPOINT" then
    match value with | .num q => decide (50 ≤ q ∧ q ≤ 90) | .str _ => false
  else if setting = "CYCLE_DELAY" then
    match value with | .num q => decide (0 ≤ q) | .str _ => false
  else if setting = "MIN_RUN_TIME" then
    match value with | .num q => decide (0 ≤ q) | .str _ => false
  else if setting = "TEMP_DIFFERENTIAL" then
    match value with | .num q => decide (0 < q) | .str _ => false
  else if setting = "HEATER_MODE" then
    match value with | .num _ => false | .str v => decide (v = "heat" ∨ v = "off")
  else false

/-- The file key a validated setting is persisted under
(`setting_keys[setting]` in _handle_temp_setting_change). -/
def setting_file_key (setting : String) : String :=
  if setting = "SETPOINT" then "setpoint"
  else if setting = "CYCLE_DELAY" then "cycle_delay"
  else if setting = "MIN_RUN_TIME" then "min_run_time"
  else if setting = "TEMP_DIFFERENTIAL" then "temp_differential"
  else "heater_mode"

/-- SettingsManager._handle_temp_setting_change: an invalid value is
rejected — the handler logs, returns false, and neither the config nor the
persisted files change (the surrounding try/except keeps any exception from
escaping).  A valid value updates the config and is saved (through the
cowbell logger the SystemController injects) to thermostat_<key>.json. -/
def handle_temp_setting_change (cfg : SysConfig) (fs : FS (SettingValue × ℚ))
    (now : ℚ) (setting : String) (value : SettingValue) (writeOk : Bool) :
    Bool × SysConfig × FS (SettingValue × ℚ) :=
  if validate_temp_setting setting value = false then
    (false, cfg, fs)
  else
    let ((success, _old), cfg1) := update_setting cfg setting value
    if success then
      let file := "thermostat_" ++ setting_file_key setting ++ ".json"
      let (_saved, fs1) := CowbellLogger.save_state fs (value, now) file writeOk
      (true, cfg1, fs1)
    else
      (false, cfg1, fs)

/-! ### Timer persistence and poll task (gg/system_controller.py) -/

/-- The contents of timer.json written by start_timed_heat. -/
structure TimerFile where
  timer_end : ℚ
  duration_hours : ℚ
  timestamp : ℚ
deriving DecidableEq

/-- Result of the timer-restore block of SystemController.initialize. -/
structure TimerRestore where
  timer_end_time : Option ℚ
  poll_started : Bool
  file_deleted : Bool
  events : List EventOut
deriving DecidableEq

/-- The timer-restore block of SystemController.initialize: when
timer.json exists and holds a truthy end time later than now, the absolute
deadline is kept and the _check_timer poll task is started; when the end
time is missing, zero, or already passed, the file is deleted.  No
thermostat_timer_start event is published in either case, so heating is
never re-enabled here. -/
def restore_timer_on_boot (fileExists : Bool) (loaded : Option TimerFile)
    (now : ℚ) : TimerRestore :=
  if fileExists = false then ⟨none, false, false, []⟩
  else
    match loaded with
    | none => ⟨none, false, false, []⟩
    | some tf =>
      if tf.timer_end ≠ 0 ∧ now < tf.timer_end then
        ⟨some tf.timer_end, true, false, []⟩
      else
        ⟨none, false, true, []⟩

/-- The instant at which SystemController._check_timer fires: the loop
sleeps 5 seconds, then tests `end_time ≤ now`, so starting at `start` it
fires at the first tick `start + 5·k` (k ≥ 1) that is at or past
`endTime`. -/
def check_timer_fire_time (start endTime : ℚ) : ℚ :=
  start + 5 * ((max 1 ⌈(endTime - start) / 5⌉ : ℤ) : ℚ)

/-- SystemController._check_timer: at the fire instant the persisted
timer.json is deleted and thermostat_timer_end is published. -/
def check_timer_run (start endTime : ℚ) : ℚ × Bool × List EventOut :=
  (check_timer_fire_time start endTime, true,
   [EventOut.thermostat_timer_end (check_timer_fire_time start endTime)])

/-! ### Concrete sample states used to instantiate the theorems -/

/-- The TEMP_SETTINGS defaults of config.py. -/
def TEMP_SETTINGS_default : List (String × SettingValue) :=
  [("MIN_TEMP", .num 40), ("MAX_TEMP", .num 90), ("MIN_RUN_TIME", .num 300),
   ("CYCLE_DELAY", .num 180), ("DEFAULT_SETPOINT", .num 72),
   ("TEMP_DIFFERENTIAL", .num 2), ("TARGET_TEMP", .num 72),
   ("HEATER_MODE", .str "off")]

/-- A thermostat mid-heating-cycle: the relay went on at t = 1000 with a
300-second minimum run time and default settings. -/
def thermoSample : ThermoState :=
  { setpoint := 70, cycle_delay := 180, min_run_time := 300, temp_differential := 2,
    heater_mode := "heat", last_off_time := 0, last_on_time := 1000,
    current_temp := some 80, fsm := "heating", last_state := none,
    cycle_delay_start := 0, relay_active := true }

/-- A monitor with one Critical condition of threshold 3 (the C3 scenario). -/
def c3_monitor : SafetyMonitor :=
  { conditions := [⟨"c", 3, 3, 0, "normal", false⟩], active := true, status := "normal",
    violation_history := [], max_history := 20, emergency_stop_count := 0,
    recovery_invoked := [] }

/-- A monitor with one Critical condition of threshold 1 that has a
recovery action registered. -/
def c5_monitor : SafetyMonitor :=
  { conditions := [⟨"c", 3, 1, 0, "normal", true⟩], active := true, status := "normal",
    violation_history := [], max_history := 20, emergency_stop_count := 0,
    recovery_invoked := [] }

/-- A monitor with one Medium condition of threshold 2 (one prior
violation counted) that has a recovery action registered. -/
def c5w_monitor : SafetyMonitor :=
  { conditions := [⟨"c", 1, 2, 1, "normal", true⟩], active := true, status := "normal",
    violation_history := [], max_history := 20, emergency_stop_count := 0,
    recovery_invoked := [] }

/-- Subscription state after a plain sync subscribe of handler 0 followed
by an async subscribe of handler 1. -/
def c7_subs : Subs := subscribe (subscribe Subs.empty 0 false false) 1 false true

/-- Folding a list of plain synchronous (non-priority) subscriptions. -/
def subscribe_all (hs : List Nat) : Subs :=
  hs.foldl (fun s h => subscribe s h false false) Subs.empty

/-- Three mode-change commands delivered inside the minimum-run window of
`thermoSample` (relay on at t = 1000, window 300 s). -/
def modeCmds : List (ℚ × String × SettingValue) :=
  [(1100, "HEATER_MODE", .str "off"), (1150, "HEATER_MODE", .str "heat"),
   (1200, "HEATER_MODE", .str "off")]

end GG


namespace GG

/-! ### Association-list lemmas -/

theorem dictGet_dictSet_self {α : Type} (l : List (String × α)) (k : String) (v : α) :
    dictGet (dictSet l k v) k = some v := by
  induction l with
  | nil => simp [dictGet, dictSet]
  | cons p rest ih =>
    obtain ⟨k', v'⟩ := p
    by_cases h : k' = k
    · simp [dictSet, h, dictGet]
    · simp [dictSet, h, dictGet, ih]

theorem dictGet_dictSet_ne {α : Type} (l : List (String × α)) (k k' : String) (v : α)
    (h : k' ≠ k) : dictGet (dictSet l k v) k' = dictGet l k' := by
  have h2 : ¬ (k = k') := fun hh => h hh.symm
  induction l with
  | nil => simp [dictGet, dictSet, h2]
  | cons p rest ih =>
    obtain ⟨a, b⟩ := p
    by_cases ha : a = k
    · subst ha; simp [dictSet, dictGet, h2]
    · simp [dictSet, ha, dictGet, ih]

theorem dictGet_dictRemove_self {α : Type} (l : List (String × α)) (k : String) :
    dictGet (dictRemove l k) k = none := by
  induction l with
  | nil => simp [dictGet, dictRemove]
  | cons p rest ih =>
    obtain ⟨a, b⟩ := p
    by_cases ha : a = k
    · simp [dictRemove, ha, ih]
    · simp [dictRemove, ha, dictGet, ih]

theorem dictGet_dictRemove_ne {α : Type} (l : List (String × α)) (k k' : String)
    (h : k' ≠ k) : dictGet (dictRemove l k) k' = dictGet l k' := by
  induction l with
  | nil => simp [dictRemove]
  | cons p rest ih =>
    obtain ⟨a, b⟩ := p
    by_cases ha : a = k
    · subst ha
      have h2 : ¬ (a = k') := fun hh => h hh.symm
      simp [dictRemove, dictGet, h2, ih]
    · simp [dictRemove, ha, dictGet, ih]

theorem append_tmp_ne (s : String) : s ++ ".tmp" ≠ s := by
  intro h
  have hl := congrArg String.length h
  rw [String.length_append] at hl
  have h4 : (".tmp" : String).length = 4 := rfl
  omega

theorem load_state_congr {α : Type} (fs fs' : FS α) (t : String)
    (h : dictGet fs t = dictGet fs' t) :
    FileLogger.load_state fs t = FileLogger.load_state fs' t := by
  unfold FileLogger.load_state
  rw [h]

end GG

namespace GG

/-- C1 counterexample: the claim quantifies over every `save_state`, but
the cowbell_logger variant (the one gg/system_controller.py instantiates)
writes straight into the target file: a write that fails part-way returns
false with the target clobbered by a partial value, so the prior value
(here 5) is no longer observable by load_state. -/
theorem save_state_direct_write_clobbers_cex :
    (CowbellLogger.save_state ([("state.json", FileData.complete 5)] : FS ℕ)
        7 "state.json" false).1 = false ∧
    dictGet (CowbellLogger.save_state ([("state.json", FileData.complete 5)] : FS ℕ)
        7 "state.json" false).2 "state.json" = some (FileData.truncated 7) ∧
    CowbellLogger.load_state (CowbellLogger.save_state
        ([("state.json", FileData.complete 5)] : FS ℕ) 7 "state.json" false).2
        "state.json" = none ∧
    CowbellLogger.load_state ([("state.json", FileData.complete 5)] : FS ℕ)
        "state.json" = some 5 := by
  decide

/-- C1 (amended): the claimed temp-write / read-back-verify / atomic-rename
round trip holds for the file_logger SimpleLogger.save_state: on any
failure it returns false with the target file's contents — and what
load_state observes — unchanged; on success the target holds exactly the
new value and load_state returns it; and no temp file is left behind, so
no partial value is ever observable under the target name. -/
theorem save_state_eq_ioError {α : Type} (fs : FS α) (data : α) (target : String)
    (renameOk : Bool) :
    FileLogger.save_state fs data target .ioError renameOk
      = (false, dictRemove (dictSet fs (target ++ ".tmp") (.truncated data))
          (target ++ ".tmp")) := rfl

theorem save_state_eq_corrupt {α : Type} (fs : FS α) (data : α) (target : String)
    (renameOk : Bool) :
    FileLogger.save_state fs data target .corrupt renameOk
      = (false, dictRemove (dictSet fs (target ++ ".tmp") (.truncated data))
          (target ++ ".tmp")) := rfl

theorem save_state_eq_ok_true {α : Type} (fs : FS α) (data : α) (target : String) :
    FileLogger.save_state fs data target .ok true
      = (true, dictRemove (dictSet (dictSet fs (target ++ ".tmp") (.complete data))
          target (.complete data)) (target ++ ".tmp")) := rfl

theorem save_state_eq_ok_false {α : Type} (fs : FS α) (data : α) (target : String) :
    FileLogger.save_state fs data target .ok false
      = (false, dictRemove (dictSet fs (target ++ ".tmp") (.complete data))
          (target ++ ".tmp")) := rfl

theorem save_state_file_logger_atomic {α : Type} (fs : FS α) (data : α)
    (target : String) (w : WriteResult) (renameOk : Bool) :
    ((FileLogger.save_state fs data target w renameOk).1 = false →
      dictGet (FileLogger.save_state fs data target w renameOk).2 target
          = dictGet fs target ∧
      FileLogger.load_state (FileLogger.save_state fs data target w renameOk).2 target
          = FileLogger.load_state fs target) ∧
    ((FileLogger.save_state fs data target w renameOk).1 = true →
      dictGet (FileLogger.save_state fs data target w renameOk).2 target
          = some (FileData.complete data) ∧
      FileLogger.load_state (FileLogger.save_state fs data target w renameOk).2 target
          = some data) ∧
    dictGet (FileLogger.save_state fs data target w renameOk).2 (target ++ ".tmp")
        = none := by
  have hne : target ≠ target ++ ".tmp" := fun h => append_tmp_ne target h.symm
  cases w with
  | ioError =>
    refine ⟨fun _ => ?_, fun hb => ?_, ?_⟩
    · have hget : dictGet (FileLogger.save_state fs data target .ioError renameOk).2 target
          = dictGet fs target := by
        rw [save_state_eq_ioError]
        rw [dictGet_dictRemove_ne _ _ _ hne, dictGet_dictSet_ne _ _ _ _ hne]
      exact ⟨hget, load_state_congr _ _ _ hget⟩
    · rw [save_state_eq_ioError] at hb
      simp at hb
    · rw [save_state_eq_ioError]
      exact dictGet_dictRemove_self _ _
  | corrupt =>
    refine ⟨fun _ => ?_, fun hb => ?_, ?_⟩
    · have hget : dictGet (FileLogger.save_state fs data target .corrupt renameOk).2 target
          = dictGet fs target := by
        rw [save_state_eq_corrupt]
        rw [dictGet_dictRemove_ne _ _ _ hne, dictGet_dictSet_ne _ _ _ _ hne]
      exact ⟨hget, load_state_congr _ _ _ hget⟩
    · rw [save_state_eq_corrupt] at hb
      simp at hb
    · rw [save_state_eq_corrupt]
      exact dictGet_dictRemove_self _ _
  | ok =>
    cases renameOk with
    | true =>
      refine ⟨fun hb => ?_, fun _ => ?_, ?_⟩
      · rw [save_state_eq_ok_true] at hb
        simp at hb
      · have hget : dictGet (FileLogger.save_state fs data target .ok true).2 target
            = some (FileData.complete data) := by
          rw [save_state_eq_ok_true]
          rw [dictGet_dictRemove_ne _ _ _ hne, dictGet_dictSet_self]
        refine ⟨hget, ?_⟩
        unfold FileLogger.load_state
        rw [hget]
      · rw [save_state_eq_ok_true]
        exact dictGet_dictRemove_self _ _
    | false =>
      refine ⟨fun _ => ?_, fun hb => ?_, ?_⟩
      · have hget : dictGet (FileLogger.save_state fs data target .ok false).2 target
            = dictGet fs target := by
          rw [save_state_eq_ok_false]
          rw [dictGet_dictRemove_ne _ _ _ hne, dictGet_dictSet_ne _ _ _ _ hne]
        exact ⟨hget, load_state_congr _ _ _ hget⟩
      · rw [save_state_eq_ok_false] at hb
        simp at hb
      · rw [save_state_eq_ok_false]
        exact dictGet_dictRemove_self _ _

/-- Witness for the amended C1 theorem at a concrete filesystem, value and
outcome: a successful save over a file holding 1 makes load_state return
the new value 2, and a failed rename leaves the stored 1 untouched. -/
theorem save_state_file_logger_atomic_witness :
    FileLogger.load_state (FileLogger.save_state
        ([("f.json", FileData.complete 1)] : FS ℕ) 2 "f.json" .ok true).2 "f.json"
      = some 2 ∧
    FileLogger.load_state (FileLogger.save_state
        ([("f.json", FileData.complete 1)] : FS ℕ) 2 "f.json" .ok false).2 "f.json"
      = some 1 := by
  have h1 := save_state_file_logger_atomic ([("f.json", FileData.complete 1)] : FS ℕ)
    2 "f.json" .ok true
  have h2 := save_state_file_logger_atomic ([("f.json", FileData.complete 1)] : FS ℕ)
    2 "f.json" .ok false
  refine ⟨(h1.2.1 (by decide)).2, ?_⟩
  rw [(h2.1 (by decide)).2]
  decide

end GG

namespace GG

/-! ### Thermostat preservation lemmas -/

theorem sm_transition_relay (now : ℚ) (s : ThermoState) (st : String) :
    (sm_transition now s st).relay_active = s.relay_active := by
  unfold sm_transition
  split_ifs <;> rfl

theorem sm_transition_last_on (now : ℚ) (s : ThermoState) (st : String) :
    (sm_transition now s st).last_on_time = s.last_on_time := by
  unfold sm_transition
  split_ifs <;> rfl

theorem sm_transition_min_run (now : ℚ) (s : ThermoState) (st : String) :
    (sm_transition now s st).min_run_time = s.min_run_time := by
  unfold sm_transition
  split_ifs <;> rfl

theorem sm_transition_setpoint (now : ℚ) (s : ThermoState) (st : String) :
    (sm_transition now s st).setpoint = s.setpoint := by
  unfold sm_transition
  split_ifs <;> rfl

/-- Inside the minimum-run window an evaluation of _check_thermostat leaves
the relay on and does not move the activation timestamp or the window. -/
theorem check_thermostat_min_run_holds (now : ℚ) (s : ThermoState)
    (hact : s.relay_active = true) (hwin : now - s.last_on_time < s.min_run_time) :
    (check_thermostat now s).1.relay_active = true ∧
    (check_thermostat now s).1.last_on_time = s.last_on_time ∧
    (check_thermostat now s).1.min_run_time = s.min_run_time := by
  unfold check_thermostat
  by_cases h0 : s.setpoint = 0 ∨ s.cycle_delay = 0 ∨ s.min_run_time = 0 ∨ s.temp_differential = 0
  · rw [if_pos h0]
    exact ⟨hact, rfl, rfl⟩
  · rw [if_neg h0, if_pos ⟨hact, hwin⟩]
    exact ⟨(sm_transition_relay now s "min_run").trans hact,
           sm_transition_last_on now s "min_run",
           sm_transition_min_run now s "min_run"⟩

/-- A setting update other than MIN_RUN_TIME does not touch the relay, the
activation timestamp or the minimum-run-time window. -/
theorem apply_setting_min_run_fields (now : ℚ) (s : ThermoState) (setting : String)
    (value : SettingValue) (hset : setting ≠ "MIN_RUN_TIME") :
    (apply_setting now s setting value).relay_active = s.relay_active ∧
    (apply_setting now s setting value).last_on_time = s.last_on_time ∧
    (apply_setting now s setting value).min_run_time = s.min_run_time := by
  cases value with
  | num q =>
    unfold apply_setting
    split_ifs with h1 h2 h3 h4 h5 <;>
      first
        | exact ⟨rfl, rfl, rfl⟩
        | exact absurd h4 hset
  | str v =>
    by_cases hH : setting = "HEATER_MODE"
    · subst hH
      have hred : apply_setting now s "HEATER_MODE" (SettingValue.str v)
          = (if v = "off" then sm_transition now { s with heater_mode := v } "disabled"
             else sm_transition now { s with heater_mode := v } "idle") := by
        unfold apply_setting
        rw [if_pos rfl]
      rw [hred]
      by_cases hv : v = "off"
      · rw [if_pos hv]
        exact ⟨sm_transition_relay _ _ _, sm_transition_last_on _ _ _,
               sm_transition_min_run _ _ _⟩
      · rw [if_neg hv]
        exact ⟨sm_transition_relay _ _ _, sm_transition_last_on _ _ _,
               sm_transition_min_run _ _ _⟩
    · unfold apply_setting
      rw [if_neg hH]
      split_ifs with h2 h3 h4 h5 <;>
        first
          | exact ⟨rfl, rfl, rfl⟩
          | exact absurd ‹setting = "MIN_RUN_TIME"› hset

/-- One delivery of a temp_setting_changed command (any setting other than
MIN_RUN_TIME) inside the minimum-run window: the relay stays on and the
window bookkeeping is untouched. -/
theorem handle_setting_change_min_run_holds (now : ℚ) (s : ThermoState)
    (setting : String) (value : SettingValue) (hset : setting ≠ "MIN_RUN_TIME")
    (hact : s.relay_active = true) (hwin : now - s.last_on_time < s.min_run_time) :
    (handle_setting_change now s setting value).1.relay_active = true ∧
    (handle_setting_change now s setting value).1.last_on_time = s.last_on_time ∧
    (handle_setting_change now s setting value).1.min_run_time = s.min_run_time := by
  obtain ⟨ha, hon, hmr⟩ := apply_setting_min_run_fields now s setting value hset
  have h := check_thermostat_min_run_holds now (apply_setting now s setting value)
    (ha.trans hact) (by rw [hon, hmr]; exact hwin)
  unfold handle_setting_change
  exact ⟨h.1, h.2.1.trans hon, h.2.2.trans hmr⟩

end GG

namespace GG

/-- C2: for every sequence of disable/mode-change commands (any
temp_setting_changed delivery that does not rewrite MIN_RUN_TIME itself —
HEATER_MODE changes from disable_heater, timer-end handlers and the debug
console are all of this shape) delivered while the relay is active and
before min_run_time seconds have elapsed since last_on_time, no evaluation
deactivates the relay: it is still active after the whole sequence. -/
theorem min_run_time_protects_relay (s : ThermoState)
    (cmds : List (ℚ × String × SettingValue))
    (hact : s.relay_active = true)
    (hcmds : ∀ c ∈ cmds, c.2.1 ≠ "MIN_RUN_TIME" ∧
      c.1 - s.last_on_time < s.min_run_time) :
    (run_commands s cmds).relay_active = true := by
  induction cmds generalizing s with
  | nil => exact hact
  | cons c rest ih =>
    obtain ⟨t, k, v⟩ := c
    have hc := hcmds (t, k, v) (List.mem_cons_self _ _)
    obtain ⟨h1, h2, h3⟩ :=
      handle_setting_change_min_run_holds t s k v hc.1 hact hc.2
    rw [run_commands]
    refine ih (handle_setting_change t s k v).1 h1 ?_
    intro c hcmem
    obtain ⟨hk, htime⟩ := hcmds c (List.mem_cons_of_mem _ hcmem)
    rw [h2, h3]
    exact ⟨hk, htime⟩

/-- Witness for C2: three mode-change commands (off, heat, off) delivered
100, 150 and 200 seconds into the 300-second minimum-run window of
`thermoSample` leave the relay active. -/
theorem min_run_time_protects_relay_witness :
    (run_commands thermoSample modeCmds).relay_active = true := by
  refine min_run_time_protects_relay thermoSample modeCmds rfl ?_
  intro c hc
  rw [modeCmds] at hc
  simp only [List.mem_cons, List.not_mem_nil, or_false] at hc
  rcases hc with h | h | h <;> subst h <;>
    exact ⟨by decide, by norm_num [thermoSample]⟩

/-- C9: whenever one of setpoint, cycle_delay, min_run_time or
temp_differential equals 0 — and 0 is accepted by the settings validator
for CYCLE_DELAY and MIN_RUN_TIME — every _check_thermostat evaluation
returns immediately: the state (relay, FSM fields, timing fields) is
returned unchanged and no relay command or event is issued. -/
theorem zero_setting_freezes_thermostat (now : ℚ) (s : ThermoState)
    (h : s.setpoint = 0 ∨ s.cycle_delay = 0 ∨ s.min_run_time = 0 ∨
      s.temp_differential = 0) :
    check_thermostat now s = (s, []) ∧
    validate_temp_setting "CYCLE_DELAY" (.num 0) = true ∧
    validate_temp_setting "MIN_RUN_TIME" (.num 0) = true := by
  refine ⟨?_, by norm_num +decide [validate_temp_setting],
    by norm_num +decide [validate_temp_setting]⟩
  unfold check_thermostat
  rw [if_pos h]

/-- Witness for C9 at a concrete state with min_run_time = 0. -/
theorem zero_setting_freezes_thermostat_witness :
    check_thermostat 1100 { thermoSample with min_run_time := 0 }
      = ({ thermoSample with min_run_time := 0 }, []) :=
  (zero_setting_freezes_thermostat 1100 { thermoSample with min_run_time := 0 }
    (by norm_num [thermoSample])).1

end GG

namespace GG

/-- The synchronous-handler loop of EventSystem.publish invokes every
handler even when earlier ones raise: failures are caught and counted. -/
theorem run_sync_handlers_runs_all (fails : Nat → Bool) (hs : List Nat)
    (st : DispatchStats) : (run_sync_handlers fails hs st).2 = hs := by
  induction hs generalizing st with
  | nil => rfl
  | cons h rest ih =>
    unfold run_sync_handlers
    simp only [ih]

/-- C4 counterexample: with the relay active and zero seconds elapsed of a
300-second minimum run time, an exception during temperature handling
deactivates the relay immediately — the code's except branch performs no
minimum-run-time check, contradicting "only once minimum run time
allows". -/
theorem hardware_error_ignores_min_run_cex :
    (1000 : ℚ) - thermoSample.last_on_time < thermoSample.min_run_time ∧
    (handle_temperature_exn 1000 thermoSample).1.relay_active = false ∧
    (handle_temperature_exn 1000 thermoSample).2.2 = true := by
  refine ⟨by norm_num [thermoSample], ?_, ?_⟩ <;>
    norm_num [handle_temperature_exn, turn_off, thermoSample]

/-- C4 (amended): when an exception is raised during temperature handling
while the relay is active, the controller logs and immediately forces the
relay to the deactivated state — with no minimum-run-time check — records
the off-time, publishes heater_deactivated (no separate error event), and
re-raises; the event bus catches handler exceptions and keeps delivering
to the remaining handlers, so the control loop continues rather than
terminating. -/
theorem hardware_error_forces_relay_off (now : ℚ) (s : ThermoState)
    (hact : s.relay_active = true) (fails : Nat → Bool) (hs : List Nat)
    (st : DispatchStats) :
    (handle_temperature_exn now s).1.relay_active = false ∧
    (handle_temperature_exn now s).1.last_off_time = now ∧
    (handle_temperature_exn now s).2.1
        = [EventOut.heater_deactivated s.current_temp s.setpoint now] ∧
    (handle_temperature_exn now s).2.2 = true ∧
    (run_sync_handlers fails hs st).2 = hs := by
  unfold handle_temperature_exn
  rw [if_pos hact]
  exact ⟨rfl, rfl, rfl, rfl, run_sync_handlers_runs_all fails hs st⟩

/-- Witness for the amended C4 theorem at the concrete mid-cycle state and
one failing handler among two. -/
theorem hardware_error_forces_relay_off_witness :
    (handle_temperature_exn 1000 thermoSample).1.relay_active = false ∧
    (run_sync_handlers (fun h => h = 0) [0, 1] ⟨0, 0⟩).2 = [0, 1] := by
  have h := hardware_error_forces_relay_off 1000 thermoSample rfl
    (fun h => h = 0) [0, 1] ⟨0, 0⟩
  exact ⟨h.1, h.2.2.2.2⟩

end GG

namespace GG

/-! ### Safety monitor lemmas -/

theorem check_safety_inactive (m : SafetyMonitor) (results : String → Option Bool)
    (ts : ℚ) (h : m.active = false) : check_safety m results ts = (false, m) := by
  unfold check_safety
  rw [if_pos h]

theorem iterate_checks_stable_after_three (k : Nat) :
    iterate_checks always_false 0 (k + 3) c3_monitor
      = iterate_checks always_false 0 3 c3_monitor := by
  induction k with
  | zero => rfl
  | succ k ih =>
    have heq : k + 1 + 3 = (k + 3) + 1 := by omega
    rw [heq]
    show (check_safety (iterate_checks always_false 0 (k + 3) c3_monitor)
      always_false 0).2 = _
    rw [ih, check_safety_inactive _ _ _ (by decide)]

/-- C3: with one registered Critical condition of threshold 3 whose check
always returns false, repeated check_safety calls invoke emergency_stop
exactly once — on the third counted violation, not before; afterwards the
monitor is inactive and every further check_safety call returns false with
the monitor unchanged (no condition is evaluated). -/
theorem critical_threshold_single_emergency_stop (n : Nat) :
    (iterate_checks always_false 0 n c3_monitor).emergency_stop_count
        = (if 3 ≤ n then 1 else 0) ∧
    (3 ≤ n →
      (iterate_checks always_false 0 n c3_monitor).active = false ∧
      check_safety (iterate_checks always_false 0 n c3_monitor) always_false 0
        = (false, iterate_checks always_false 0 n c3_monitor)) := by
  match n with
  | 0 => exact ⟨by decide, fun h => absurd h (by decide)⟩
  | 1 => exact ⟨by decide, fun h => absurd h (by decide)⟩
  | 2 => exact ⟨by decide, fun h => absurd h (by decide)⟩
  | (k + 3) =>
    rw [iterate_checks_stable_after_three k]
    refine ⟨?_, fun _ => ?_⟩
    · rw [if_pos (by omega)]
      decide
    · exact ⟨by decide, check_safety_inactive _ _ _ (by decide)⟩

/-- Witness for C3 at five repeated calls: one emergency stop, monitor
inactive. -/
theorem critical_threshold_single_emergency_stop_witness :
    (iterate_checks always_false 0 5 c3_monitor).emergency_stop_count = 1 ∧
    (iterate_checks always_false 0 5 c3_monitor).active = false := by
  have h := critical_threshold_single_emergency_stop 5
  exact ⟨h.1.trans (by decide), (h.2 (by decide)).1⟩

end GG

namespace GG

/-- C5 counterexample: a Critical condition with threshold 1 and a
registered recovery_action reaches its threshold on one check, yet the
condition's status stays "normal" (never set to violation) and the
recovery_action is not invoked (the severity >= High branch runs
emergency_stop instead); only the history append happens — and no
safety_violation event is published anywhere in gg/core/Safety.py, whose
event_system field is never used. -/
theorem violation_effects_cex :
    (check_safety c5_monitor always_false 0).2.conditions.map SafetyCondition.status
        = ["normal"] ∧
    (check_safety c5_monitor always_false 0).2.recovery_invoked = [] ∧
    (check_safety c5_monitor always_false 0).2.violation_history = [("c", 3, 0)] ∧
    (check_safety c5_monitor always_false 0).2.emergency_stop_count = 1 := by
  decide

theorem handle_violation_history (m : SafetyMonitor) (c : SafetyCondition) (ts : ℚ)
    (hlen : m.violation_history.length < m.max_history) :
    (handle_violation m c ts).violation_history
      = m.violation_history ++ [(c.name, c.severity, ts)] := by
  have hpop : ¬ (m.max_history < (m.violation_history ++ [(c.name, c.severity, ts)]).length) := by
    rw [List.length_append]
    simp only [List.length_cons, List.length_nil]
    omega
  simp only [handle_violation]
  rw [if_neg hpop]
  by_cases hsev : 2 ≤ c.severity
  · rw [if_pos hsev]; rfl
  · rw [if_neg hsev]
    by_cases hrec : c.has_recovery = true
    · rw [if_pos hrec]
    · rw [if_neg hrec]

theorem handle_violation_high (m : SafetyMonitor) (c : SafetyCondition) (ts : ℚ)
    (hsev : 2 ≤ c.severity) :
    (handle_violation m c ts).emergency_stop_count = m.emergency_stop_count + 1 ∧
    (handle_violation m c ts).active = false ∧
    (handle_violation m c ts).status = "failure" ∧
    (handle_violation m c ts).recovery_invoked = m.recovery_invoked ∧
    (handle_violation m c ts).conditions = m.conditions := by
  simp only [handle_violation, emergency_stop]
  rw [if_pos hsev]
  split_ifs <;> exact ⟨rfl, rfl, rfl, rfl, rfl⟩

theorem handle_violation_low (m : SafetyMonitor) (c : SafetyCondition) (ts : ℚ)
    (hsev : ¬ 2 ≤ c.severity) (hrec : c.has_recovery = true) :
    (handle_violation m c ts).recovery_invoked = m.recovery_invoked ++ [c.name] ∧
    (handle_violation m c ts).emergency_stop_count = m.emergency_stop_count ∧
    (handle_violation m c ts).active = m.active ∧
    (handle_violation m c ts).conditions = m.conditions := by
  simp only [handle_violation]
  rw [if_neg hsev, if_pos hrec]
  split_ifs <;> exact ⟨rfl, rfl, rfl, rfl⟩

/-- One check_safety call on a monitor holding a single condition whose
check reports unsafe and whose threshold is reached: the loop increments
the count and runs _handle_violation on the incremented condition. -/
theorem check_safety_singleton (c : SafetyCondition) (m : SafetyMonitor)
    (ts : ℚ) (res : String → Option Bool)
    (hconds : m.conditions = [c]) (hact : m.active = true)
    (hres : res c.name = some false)
    (hth : c.threshold ≤ c.violation_count + 1) :
    check_safety m res ts
      = (false,
         { handle_violation m { c with violation_count := c.violation_count + 1 } ts
             with conditions := [{ c with violation_count := c.violation_count + 1 }] }) := by
  have hmact : ¬ (m.active = false) := by rw [hact]; simp
  unfold check_safety
  rw [if_neg hmact, hconds]
  unfold check_loop
  rw [hres]
  simp only [hth, if_pos]
  rfl

end GG

namespace GG

/-- C5 (amended): for a registered safety condition whose false check
raises violation_count to its threshold, the violation is appended to the
bounded history ring, but the condition's status field stays unchanged
(never set to Violation); for High or Critical severity emergency_stop is
invoked and the recovery_action is skipped, while for lower severities the
recovery_action (when present) is invoked; no safety_violation event is
published (gg/core/Safety.py never uses its event_system). -/
theorem violation_threshold_effects (c : SafetyCondition) (m : SafetyMonitor)
    (ts : ℚ) (res : String → Option Bool)
    (hconds : m.conditions = [c]) (hact : m.active = true)
    (hres : res c.name = some false)
    (hth : c.threshold ≤ c.violation_count + 1)
    (hlen : m.violation_history.length < m.max_history) :
    (check_safety m res ts).2.conditions
        = [{ c with violation_count := c.violation_count + 1 }] ∧
    (check_safety m res ts).2.violation_history
        = m.violation_history ++ [(c.name, c.severity, ts)] ∧
    (2 ≤ c.severity →
      (check_safety m res ts).2.emergency_stop_count = m.emergency_stop_count + 1 ∧
      (check_safety m res ts).2.active = false ∧
      (check_safety m res ts).2.status = "failure" ∧
      (check_safety m res ts).2.recovery_invoked = m.recovery_invoked) ∧
    (¬ 2 ≤ c.severity → c.has_recovery = true →
      (check_safety m res ts).2.recovery_invoked = m.recovery_invoked ++ [c.name] ∧
      (check_safety m res ts).2.emergency_stop_count = m.emergency_stop_count ∧
      (check_safety m res ts).2.active = m.active) := by
  rw [check_safety_singleton c m ts res hconds hact hres hth]
  refine ⟨rfl, ?_, ?_, ?_⟩
  · exact handle_violation_history m _ ts hlen
  · intro hsev
    obtain ⟨h1, h2, h3, h4, _⟩ := handle_violation_high m
      { c with violation_count := c.violation_count + 1 } ts hsev
    exact ⟨h1, h2, h3, h4⟩
  · intro hsev hrec
    obtain ⟨h1, h2, h3, _⟩ := handle_violation_low m
      { c with violation_count := c.violation_count + 1 } ts hsev hrec
    exact ⟨h1, h2, h3⟩

/-- Witness for the amended C5 theorem: a Medium-severity condition at its
threshold gets its recovery action invoked and the violation recorded,
with no emergency stop. -/
theorem violation_threshold_effects_witness :
    (check_safety c5w_monitor always_false 0).2.violation_history = [("c", 1, 0)] ∧
    (check_safety c5w_monitor always_false 0).2.recovery_invoked = ["c"] ∧
    (check_safety c5w_monitor always_false 0).2.emergency_stop_count = 0 := by
  have h := violation_threshold_effects ⟨"c", 1, 2, 1, "normal", true⟩ c5w_monitor 0
    always_false rfl rfl rfl (by decide) (by decide)
  obtain ⟨hrec, hstop, -⟩ := h.2.2.2 (by decide) rfl
  exact ⟨h.2.1, hrec, hstop⟩

end GG

namespace GG

theorem condLookup_condInsert_self (cs : List SafetyCondition) (c : SafetyCondition) :
    condLookup (condInsert cs c) c.name = some c := by
  induction cs with
  | nil => simp [condInsert, condLookup]
  | cons c' rest ih =>
    by_cases h : c'.name = c.name
    · simp [condInsert, h, condLookup]
    · simp [condInsert, h, condLookup, ih]

theorem condLookup_condInsert_ne (cs : List SafetyCondition) (c : SafetyCondition)
    (k : String) (hk : k ≠ c.name) :
    condLookup (condInsert cs c) k = condLookup cs k := by
  have hk2 : ¬ (c.name = k) := fun h => hk h.symm
  induction cs with
  | nil => simp [condInsert, condLookup, hk2]
  | cons c' rest ih =>
    by_cases h : c'.name = c.name
    · rw [condInsert, if_pos h, condLookup, if_neg hk2, condLookup,
        if_neg (h ▸ hk2)]
    · rw [condInsert, if_neg h, condLookup, condLookup, ih]

/-- C10: add_condition raises once 20 (MAX_CONDITIONS) conditions are
registered — the raise precedes any mutation, so the registry is unchanged
— and below the cap it stores a fresh condition under the name,
overwriting an existing condition of that name in place and leaving every
other name's entry untouched. -/
theorem add_condition_cap (m : SafetyMonitor) (name : String)
    (severity threshold : Nat) (rec : Bool) :
    (MAX_CONDITIONS ≤ m.conditions.length →
      add_condition m name severity threshold rec = none) ∧
    (m.conditions.length < MAX_CONDITIONS →
      add_condition m name severity threshold rec
          = some { m with conditions := condInsert m.conditions
                            (SafetyCondition.mk_new name severity threshold rec) } ∧
      condLookup (condInsert m.conditions
            (SafetyCondition.mk_new name severity threshold rec)) name
          = some (SafetyCondition.mk_new name severity threshold rec) ∧
      ∀ k, k ≠ name →
        condLookup (condInsert m.conditions
              (SafetyCondition.mk_new name severity threshold rec)) k
            = condLookup m.conditions k) := by
  constructor
  · intro h
    unfold add_condition
    rw [if_pos h]
  · intro h
    refine ⟨?_, ?_, ?_⟩
    · unfold add_condition
      rw [if_neg (by omega)]
    · exact condLookup_condInsert_self m.conditions _
    · intro k hk
      exact condLookup_condInsert_ne m.conditions _ k hk

/-- Witness for C10: adding a condition to a fresh monitor (0 of 20 slots
used) succeeds and the condition is found under its name. -/
theorem add_condition_cap_witness :
    add_condition SafetyMonitor.init "c" 3 1 false
      = some { SafetyMonitor.init with
          conditions := [SafetyCondition.mk_new "c" 3 1 false] } ∧
    condLookup [SafetyCondition.mk_new "c" 3 1 false] "c"
      = some (SafetyCondition.mk_new "c" 3 1 false) := by
  have h := (add_condition_cap SafetyMonitor.init "c" 3 1 false).2 (by decide)
  exact ⟨h.1, h.2.1⟩

end GG

namespace GG

/-- _check_thermostat never writes the setpoint field. -/
theorem check_thermostat_setpoint (now : ℚ) (s : ThermoState) :
    (check_thermostat now s).1.setpoint = s.setpoint := by
  unfold check_thermostat
  cases hct : s.current_temp with
  | none =>
    split_ifs <;> simp [sm_transition_setpoint, turn_off, turn_on] <;>
      split_ifs <;> simp [sm_transition_setpoint, turn_off, turn_on]
  | some t =>
    split_ifs <;> simp [sm_transition_setpoint, turn_off, turn_on] <;>
      split_ifs <;> simp [sm_transition_setpoint, turn_off, turn_on]

/-- C6 counterexample: a SETPOINT of 200 (outside 50 to 90) is rejected by
the SettingsManager handler — config and files untouched, False returned —
but the ThermostatController's own temp_setting_changed subscriber applies
the raw value to its in-memory field with no range check, so system state
does change. -/
theorem invalid_setting_not_rejected_everywhere_cex :
    validate_temp_setting "SETPOINT" (.num 200) = false ∧
    handle_temp_setting_change ⟨TEMP_SETTINGS_default⟩ [] 0 "SETPOINT"
        (.num 200) true = (false, ⟨TEMP_SETTINGS_default⟩, []) ∧
    thermoSample.setpoint = 70 ∧
    (handle_setting_change 0 thermoSample "SETPOINT" (.num 200)).1.setpoint = 200 := by
  refine ⟨by norm_num +decide [validate_temp_setting], ?_,
    by norm_num [thermoSample], ?_⟩
  · norm_num +decide [handle_temp_setting_change, validate_temp_setting]
  · norm_num +decide [handle_setting_change, apply_setting, check_thermostat,
      sm_transition, turn_off, turn_on, thermoSample]

/-- C6 (amended): a temp_setting_changed event whose value fails the range
check is rejected by the SettingsManager with the prior config value
retained, nothing persisted and no exception escaping its handler; but the
ThermostatController's own subscriber still applies the raw value to its
in-memory setting (shown for SETPOINT), so the change is not without
effect on system state. -/
theorem invalid_setting_rejected_only_in_settings_manager (cfg : SysConfig)
    (fs : FS (SettingValue × ℚ)) (now t : ℚ) (setting : String)
    (value : SettingValue) (wok : Bool) (s : ThermoState) (q : ℚ)
    (hv : validate_temp_setting setting value = false) :
    handle_temp_setting_change cfg fs now setting value wok = (false, cfg, fs) ∧
    (handle_setting_change t s "SETPOINT" (SettingValue.num q)).1.setpoint = q := by
  constructor
  · unfold handle_temp_setting_change
    rw [if_pos hv]
  · have happ : (apply_setting t s "SETPOINT" (SettingValue.num q)).setpoint = q := by
      unfold apply_setting
      norm_num +decide
    unfold handle_setting_change
    rw [check_thermostat_setpoint, happ]

/-- Witness for the amended C6 theorem: a zero TEMP_DIFFERENTIAL is
rejected by the SettingsManager while a SETPOINT event is applied in
memory by the controller. -/
theorem invalid_setting_rejected_only_in_settings_manager_witness :
    handle_temp_setting_change ⟨TEMP_SETTINGS_default⟩ [] 0 "TEMP_DIFFERENTIAL"
        (.num 0) true = (false, ⟨TEMP_SETTINGS_default⟩, []) ∧
    (handle_setting_change 0 thermoSample "SETPOINT" (SettingValue.num 55)).1.setpoint
      = 55 :=
  invalid_setting_rejected_only_in_settings_manager ⟨TEMP_SETTINGS_default⟩ [] 0 0
    "TEMP_DIFFERENTIAL" (.num 0) true thermoSample 55
    (by norm_num +decide [validate_temp_setting])

end GG

namespace GG

theorem start_order_cons_seq (h : Nat) (ds : List Dispatch) :
    start_order (Dispatch.seq h :: ds) = h :: start_order ds := rfl

theorem start_order_map_seq (l : List Nat) :
    start_order (l.map Dispatch.seq) = l := by
  induction l with
  | nil => rfl
  | cons h t ih =>
    rw [List.map_cons, start_order_cons_seq, ih]

theorem all_sequential_map_seq (l : List Nat) :
    all_sequential (l.map Dispatch.seq) = true := by
  induction l with
  | nil => rfl
  | cons h t ih =>
    rw [List.map_cons]
    simpa [all_sequential] using ih

theorem subscribe_sync_plain (s : Subs) (h : Nat) :
    subscribe s h false false
      = if h ∈ s.syncSubs then s
        else { s with syncSubs := s.syncSubs ++ [h],
                      registered := s.registered ++ [h] } := rfl

/-- Folding plain synchronous subscriptions of fresh handlers keeps the
async and priority lists empty and appends the handlers, in order, to both
the sync list and the registration log. -/
theorem subscribe_all_sync_aux (hs : List Nat) (s : Subs)
    (hax : s.asyncSubs = []) (hpr : s.prioritySubs = [])
    (hnd : hs.Nodup) (hdisj : ∀ h ∈ hs, h ∉ s.syncSubs) :
    (hs.foldl (fun st h => subscribe st h false false) s).asyncSubs = [] ∧
    (hs.foldl (fun st h => subscribe st h false false) s).prioritySubs = [] ∧
    (hs.foldl (fun st h => subscribe st h false false) s).syncSubs
      = s.syncSubs ++ hs ∧
    (hs.foldl (fun st h => subscribe st h false false) s).registered
      = s.registered ++ hs := by
  induction hs generalizing s with
  | nil => simpa using ⟨hax, hpr⟩
  | cons h t ih =>
    have hmem : h ∉ s.syncSubs := hdisj h (List.mem_cons_self _ _)
    have hsub : subscribe s h false false
        = { s with syncSubs := s.syncSubs ++ [h],
                   registered := s.registered ++ [h] } := by
      rw [subscribe_sync_plain, if_neg hmem]
    obtain ⟨hh, ht⟩ := List.nodup_cons.mp hnd
    rw [List.foldl_cons, hsub]
    have hd2 : ∀ x ∈ t,
        x ∉ ({ s with syncSubs := s.syncSubs ++ [h], registered := s.registered ++ [h] } : Subs).syncSubs := by
      intro x hx
      simp only [List.mem_append, List.mem_singleton, not_or]
      exact ⟨hdisj x (List.mem_cons_of_mem _ hx), fun he => hh (he ▸ hx)⟩
    obtain ⟨a1, a2, a3, a4⟩ :=
      ih ({ s with syncSubs := s.syncSubs ++ [h], registered := s.registered ++ [h] }) hax hpr ht hd2
    refine ⟨a1, a2, ?_, ?_⟩
    · rw [a3]
      simp
    · rw [a4]
      simp

/-- C7 counterexample: subscribe handler 0 as a plain (sync) handler, then
handler 1 with is_async: registration order is [0, 1], but publish starts
1 — inside an asyncio.gather batch that is not awaited handler-by-handler
— before invoking 0, so handlers are neither invoked in registration order
nor each awaited to completion before the next. -/
theorem publish_not_registration_order_cex :
    c7_subs.registered = [0, 1] ∧
    start_order (publish_schedule c7_subs) = [1, 0] ∧
    all_sequential (publish_schedule c7_subs) = false := by
  decide

/-- C7 (amended): publish dispatches priority handlers first, then every
async subscriber concurrently in a single gather batch, then sync handlers
one by one, so overall registration order across the three groups is not
respected; restricted to plain synchronous non-priority subscribers
(which is how every controller in this repository subscribes), delivery is
as the claim states: sequential, each handler completing before the next,
in registration order, deterministically. -/
theorem sync_only_publish_sequential (hs : List Nat) (hnd : hs.Nodup) :
    all_sequential (publish_schedule (subscribe_all hs)) = true ∧
    start_order (publish_schedule (subscribe_all hs)) = hs ∧
    (subscribe_all hs).registered = hs := by
  obtain ⟨a1, a2, a3, a4⟩ := subscribe_all_sync_aux hs Subs.empty rfl rfl hnd
    (by intro x hx; simp [Subs.empty])
  have e1 : (subscribe_all hs).asyncSubs = [] := a1
  have e2 : (subscribe_all hs).prioritySubs = [] := a2
  have e3 : (subscribe_all hs).syncSubs = hs := by
    unfold subscribe_all
    rw [a3]
    simp [Subs.empty]
  have e4 : (subscribe_all hs).registered = hs := by
    unfold subscribe_all
    rw [a4]
    simp [Subs.empty]
  refine ⟨?_, ?_, e4⟩ <;>
  · unfold publish_schedule
    rw [e1, e2, e3]
    simp [all_sequential_map_seq, start_order_map_seq]

/-- Witness for the amended C7 theorem with three sync subscribers. -/
theorem sync_only_publish_sequential_witness :
    all_sequential (publish_schedule (subscribe_all [0, 1, 2])) = true ∧
    start_order (publish_schedule (subscribe_all [0, 1, 2])) = [0, 1, 2] :=
  ⟨(sync_only_publish_sequential [0, 1, 2] (by decide)).1,
   (sync_only_publish_sequential [0, 1, 2] (by decide)).2.1⟩

end GG

namespace GG

/-- The _check_timer poll (sleep 5, then compare) fires at or after the
deadline but less than one poll interval past it. -/
theorem check_timer_fire_time_bounds (start endTime : ℚ) (h : start < endTime) :
    endTime ≤ check_timer_fire_time start endTime ∧
    check_timer_fire_time start endTime < endTime + 5 := by
  have hd : (0 : ℚ) < (endTime - start) / 5 := by
    apply div_pos (by linarith) (by norm_num)
  have hc1 : (0 : ℤ) < ⌈(endTime - start) / 5⌉ := Int.ceil_pos.mpr hd
  have hmax : max 1 ⌈(endTime - start) / 5⌉ = ⌈(endTime - start) / 5⌉ :=
    max_eq_right (by omega)
  have hle : (endTime - start) / 5 ≤ ((⌈(endTime - start) / 5⌉ : ℤ) : ℚ) :=
    Int.le_ceil _
  have hlt : ((⌈(endTime - start) / 5⌉ : ℤ) : ℚ) < (endTime - start) / 5 + 1 :=
    Int.ceil_lt_add_one _
  have h1 : endTime - start ≤ 5 * ((⌈(endTime - start) / 5⌉ : ℤ) : ℚ) := by
    have h2 := mul_le_mul_of_nonneg_left hle (show (0:ℚ) ≤ 5 by norm_num)
    calc endTime - start = 5 * ((endTime - start) / 5) := by field_simp
    _ ≤ 5 * ((⌈(endTime - start) / 5⌉ : ℤ) : ℚ) := h2
  have h3 : 5 * ((⌈(endTime - start) / 5⌉ : ℤ) : ℚ) < (endTime - start) + 5 := by
    have h4 := mul_lt_mul_of_pos_left hlt (show (0:ℚ) < 5 by norm_num)
    calc 5 * ((⌈(endTime - start) / 5⌉ : ℤ) : ℚ)
        < 5 * ((endTime - start) / 5 + 1) := h4
    _ = (endTime - start) + 5 := by field_simp
  unfold check_timer_fire_time
  rw [hmax]
  constructor
  · linarith
  · linarith

theorem restore_timer_on_boot_some (tf : TimerFile) (now : ℚ) :
    restore_timer_on_boot true (some tf) now
      = if tf.timer_end ≠ 0 ∧ now < tf.timer_end then
          ⟨some tf.timer_end, true, false, []⟩
        else ⟨none, false, true, []⟩ := rfl

/-- C8: on boot with a persisted timer whose (truthy) end time lies in the
future, the poll task resumes carrying the persisted absolute deadline
unchanged, the file is kept and no heating-enable event is published; the
poll then deletes the file and publishes thermostat_timer_end at the
original deadline, within one 5-second poll interval of it — not a full
duration after restart.  If the end time has already passed, the file is
deleted, no poll starts, and no event re-enables heating. -/
theorem timer_resume_absolute_deadline (tf : TimerFile) (now : ℚ)
    (h0 : tf.timer_end ≠ 0) :
    (now < tf.timer_end →
      restore_timer_on_boot true (some tf) now
          = ⟨some tf.timer_end, true, false, []⟩ ∧
      tf.timer_end ≤ check_timer_fire_time now tf.timer_end ∧
      check_timer_fire_time now tf.timer_end < tf.timer_end + 5 ∧
      (check_timer_run now tf.timer_end).2.2
          = [EventOut.thermostat_timer_end (check_timer_fire_time now tf.timer_end)] ∧
      (check_timer_run now tf.timer_end).2.1 = true) ∧
    (tf.timer_end ≤ now →
      restore_timer_on_boot true (some tf) now = ⟨none, false, true, []⟩) := by
  constructor
  · intro hlt
    obtain ⟨hb1, hb2⟩ := check_timer_fire_time_bounds now tf.timer_end hlt
    refine ⟨?_, hb1, hb2, rfl, rfl⟩
    rw [restore_timer_on_boot_some, if_pos ⟨h0, hlt⟩]
  · intro hle
    rw [restore_timer_on_boot_some, if_neg ?_]
    rintro ⟨-, hlt⟩
    exact absurd hlt (not_lt.mpr hle)

/-- Witness for C8: the spec's scenario — a 36-second deadline, restart at
t = 10 — resumes with deadline 36 and fires in the window from 36 up to
41. -/
theorem timer_resume_absolute_deadline_witness :
    restore_timer_on_boot true (some ⟨36, 1, 0⟩) 10 = ⟨some 36, true, false, []⟩ ∧
    (36 : ℚ) ≤ check_timer_fire_time 10 36 ∧
    check_timer_fire_time 10 36 < 36 + 5 := by
  have h := (timer_resume_absolute_deadline ⟨36, 1, 0⟩ 10 (by norm_num)).1
    (by norm_num)
  exact ⟨h.1, h.2.1, h.2.2.1⟩

end GG
